import Mathlib

/-!
Shallow embedding of `scripts/check_passwords.py`, the credential scanner
used as a commit gate.  Lines of text are modelled as `List Char`; the
Python regular expressions of `PASSWORD_PATTERNS` are compiled to an
explicit pattern datatype whose matching function reproduces Python
`re.finditer` semantics with `re.IGNORECASE` on these particular patterns
(see the comment on `Pattern`).  File-system access is modelled by a
`FileSystem` record of pure functions; `main` returns the process exit
status, and the messages printed to stderr are collected in a list.
-/

namespace CheckPasswords

/-! ## Character and list helpers -/

/-- ASCII whitespace, as recognised by Python's `\s` and `str.strip()`
on the ASCII range (the inputs of this development are ASCII). -/
def isSpaceChar (c : Char) : Bool :=
  (c == ' ') || (c == '\t') || (c == '\n') || (c == '\x0b') || (c == '\x0c') || (c == '\r')

/-- Case-insensitive character comparison (ASCII case folding), the
effect of `re.IGNORECASE` on literal characters. -/
def charCI (a b : Char) : Bool := a.toLower == b.toLower

/-- Membership in the regex class `[a-zA-Z0-9]`. -/
def isAlnumAscii (c : Char) : Bool :=
  (decide ('a' ≤ c) && decide (c ≤ 'z')) ||
  (decide ('A' ≤ c) && decide (c ≤ 'Z')) ||
  (decide ('0' ≤ c) && decide (c ≤ '9'))

/-- Strip a case-insensitive literal from the front of the input,
returning the rest; `none` when the literal does not match. -/
def stripCI : List Char → List Char → Option (List Char)
  | [], s => some s
  | _ :: _, [] => none
  | p :: ps, c :: cs => if charCI p c then stripCI ps cs else none

/-- Substring containment, Python's `needle in hay` on strings
(case-sensitive, as in the suppression checks of the source). -/
def occursIn (needle : List Char) : List Char → Bool
  | [] => needle.isEmpty
  | c :: rest => needle.isPrefixOf (c :: rest) || occursIn needle rest

/-- Python `str.split(sep)` for a one-character separator: splits on every
occurrence, keeping empty pieces, and returns `[""]` on the empty string. -/
def splitOnChar (sep : Char) : List Char → List (List Char)
  | [] => [[]]
  | c :: rest =>
    if c == sep then [] :: splitOnChar sep rest
    else
      match splitOnChar sep rest with
      | [] => [[c]]
      | r :: rs => (c :: r) :: rs

/-- Python `str.strip()`: drop whitespace from both ends. -/
def trimList (s : List Char) : List Char :=
  ((s.dropWhile isSpaceChar).reverse.dropWhile isSpaceChar).reverse

/-- Python `str.startswith` on list-of-character strings. -/
def startsWithList (p s : List Char) : Bool := p.isPrefixOf s

/-- Python `str.endswith` on list-of-character strings. -/
def endsWithList (p s : List Char) : Bool := p.reverse.isPrefixOf s.reverse

/-- Python `enumerate(lines, n)`. -/
def enumFromN {α : Type} : Nat → List α → List (Nat × α)
  | _, [] => []
  | n, a :: rest => (n, a) :: enumFromN (n + 1) rest

/-! ## The pattern registry

Each regex in the source's `PASSWORD_PATTERNS` has the shape

  deterministic prefix pieces, then one capture group, then a closing piece

where every greedy repetition (`\s*`, `[^X]+`, `[^X]{n,}`, `[a-zA-Z0-9]{n,}`)
is followed by a piece whose first character can never belong to the
repeated class (`[:=]` and quotes are not whitespace; a quote is not in
`[^"']`; `:` is not in `[^:]`; `@` is not in `[^@]`; a quote is not
alphanumeric).  Under that disjointness, Python's backtracking search
matches exactly the maximal greedy run, so the compiled matcher below
takes the maximal run with no backtracking and is extensionally equal to
`re.finditer` with `re.IGNORECASE` on these patterns.  Alternations are
tried left to right with the closing piece as continuation, exactly as
Python tries alternatives at a fixed starting position. -/

/-- A deterministic (non-capturing) piece of a compiled pattern. -/
inductive Pre where
  /-- a case-insensitive literal -/
  | lit (s : String)
  /-- the regex `\s*` -/
  | ws
  /-- a single character drawn from a set, e.g. `[:=]` or `["']` -/
  | oneOf (cs : List Char)
  /-- the regex `[^cs]{lo,}`, greedy, not captured -/
  | notRun (cs : List Char) (lo : Nat)
  deriving Repr

/-- The single capture group of a compiled pattern. -/
inductive Cap where
  /-- the regex `([^cs]{lo,})`, greedy -/
  | notOf (cs : List Char) (lo : Nat)
  /-- the regex `([a-zA-Z0-9]{lo,})`, greedy -/
  | alnum (lo : Nat)
  /-- an alternation of literal words `(w1|w2|...)`, tried in order -/
  | words (ws : List String)
  deriving Repr

/-- A compiled pattern: prefix pieces, one capture group, closing pieces.
Every entry of the source's `PASSWORD_PATTERNS` has this shape. -/
structure Pattern where
  pre : List Pre
  cap : Cap
  post : List Pre
  deriving Repr

/-- Match a list of deterministic pieces at the front of the input,
returning the remaining input. -/
def matchPre : List Pre → List Char → Option (List Char)
  | [], s => some s
  | Pre.lit w :: ps, s =>
    match stripCI w.data s with
    | some r => matchPre ps r
    | none => none
  | Pre.ws :: ps, s => matchPre ps (s.dropWhile isSpaceChar)
  | Pre.oneOf cs :: ps, s =>
    match s with
    | [] => none
    | c :: r => if cs.contains c then matchPre ps r else none
  | Pre.notRun cs lo :: ps, s =>
    let run := s.takeWhile (fun c => !(cs.contains c))
    if lo ≤ run.length then matchPre ps (s.drop run.length) else none

/-- Try the alternatives of a word alternation in order, each with the
closing pieces as continuation; the capture is the consumed input slice
(so its case is the input's, as with Python's `match.group(1)`). -/
def tryWords (post : List Pre) (s : List Char) : List String → Option (List Char × List Char)
  | [] => none
  | w :: rest =>
    match stripCI w.data s with
    | some r =>
      match matchPre post r with
      | some r2 => some (s.take w.data.length, r2)
      | none => tryWords post s rest
    | none => tryWords post s rest

/-- Match the capture group followed by the closing pieces, returning the
captured slice and the remaining input. -/
def matchCap : Cap → List Pre → List Char → Option (List Char × List Char)
  | Cap.notOf cs lo, post, s =>
    let run := s.takeWhile (fun c => !(cs.contains c))
    if lo ≤ run.length then
      match matchPre post (s.drop run.length) with
      | some r => some (run, r)
      | none => none
    else none
  | Cap.alnum lo, post, s =>
    let run := s.takeWhile isAlnumAscii
    if lo ≤ run.length then
      match matchPre post (s.drop run.length) with
      | some r => some (run, r)
      | none => none
    else none
  | Cap.words ws, post, s => tryWords post s ws

/-- Try to match a whole pattern at the current position.  On success,
returns the capture-group text (Python `match.group(1)`; every pattern in
the registry has exactly one group, so the source's `group(0)` fallback is
dead code) and the input remaining after the whole match. -/
def matchPattern (p : Pattern) (s : List Char) : Option (List Char × List Char) :=
  match matchPre p.pre s with
  | some r => matchCap p.cap p.post r
  | none => none

/-- Python `re.finditer`: scan starting positions left to right, emit
non-overlapping matches, resume after each match.  Fuelled recursion; the
initial fuel `length + 1` suffices because every pattern consumes at least
one character. -/
def findAllAux (p : Pattern) : Nat → List Char → List (List Char)
  | 0, _ => []
  | fuel + 1, s =>
    match matchPattern p s with
    | some (cred, rest) => cred :: findAllAux p fuel rest
    | none =>
      match s with
      | [] => []
      | _ :: t => findAllAux p fuel t

/-- All captures of one pattern on one line, in positional order. -/
def findAll (p : Pattern) (line : List Char) : List (List Char) :=
  findAllAux p (line.length + 1) line

/-- The two quote characters of the regex class `["']`. -/
def quoteChars : List Char := ['\x22', '\x27']

/-- Compiled from `r'password\s*[:=]\s*["\']([^"\']{6,})["\']'`. -/
def patPassword : Pattern :=
  ⟨[Pre.lit "password", Pre.ws, Pre.oneOf [':', '='], Pre.ws, Pre.oneOf quoteChars],
   Cap.notOf quoteChars 6, [Pre.oneOf quoteChars]⟩

/-- Compiled from `r'pass\s*[:=]\s*["\']([^"\']{6,})["\']'`. -/
def patPass : Pattern :=
  ⟨[Pre.lit "pass", Pre.ws, Pre.oneOf [':', '='], Pre.ws, Pre.oneOf quoteChars],
   Cap.notOf quoteChars 6, [Pre.oneOf quoteChars]⟩

/-- Compiled from `r'pwd\s*[:=]\s*["\']([^"\']{6,})["\']'`. -/
def patPwd : Pattern :=
  ⟨[Pre.lit "pwd", Pre.ws, Pre.oneOf [':', '='], Pre.ws, Pre.oneOf quoteChars],
   Cap.notOf quoteChars 6, [Pre.oneOf quoteChars]⟩

/-- Compiled from `r'secret\s*[:=]\s*["\']([^"\']{6,})["\']'`. -/
def patSecret : Pattern :=
  ⟨[Pre.lit "secret", Pre.ws, Pre.oneOf [':', '='], Pre.ws, Pre.oneOf quoteChars],
   Cap.notOf quoteChars 6, [Pre.oneOf quoteChars]⟩

/-- Compiled from `r'token\s*[:=]\s*["\']([^"\']{6,})["\']'`. -/
def patToken : Pattern :=
  ⟨[Pre.lit "token", Pre.ws, Pre.oneOf [':', '='], Pre.ws, Pre.oneOf quoteChars],
   Cap.notOf quoteChars 6, [Pre.oneOf quoteChars]⟩

/-- Compiled from `r'key\s*[:=]\s*["\']([^"\']{6,})["\']'`. -/
def patKey : Pattern :=
  ⟨[Pre.lit "key", Pre.ws, Pre.oneOf [':', '='], Pre.ws, Pre.oneOf quoteChars],
   Cap.notOf quoteChars 6, [Pre.oneOf quoteChars]⟩

/-- Compiled from `r'auth\s*[:=]\s*["\']([^"\']{6,})["\']'`. -/
def patAuth : Pattern :=
  ⟨[Pre.lit "auth", Pre.ws, Pre.oneOf [':', '='], Pre.ws, Pre.oneOf quoteChars],
   Cap.notOf quoteChars 6, [Pre.oneOf quoteChars]⟩

/-- Compiled from `r'mongodb://[^:]+:([^@]+)@'`. -/
def patMongodb : Pattern :=
  ⟨[Pre.lit "mongodb://", Pre.notRun [':'] 1, Pre.lit ":"],
   Cap.notOf ['@'] 1, [Pre.lit "@"]⟩

/-- Compiled from `r'mongodb\+srv://[^:]+:([^@]+)@'`. -/
def patMongodbSrv : Pattern :=
  ⟨[Pre.lit "mongodb+srv://", Pre.notRun [':'] 1, Pre.lit ":"],
   Cap.notOf ['@'] 1, [Pre.lit "@"]⟩

/-- Compiled from
`r'["\'](admin|root|user|test|demo|password|secret|123456|qwerty|admin123)["\']'`. -/
def patHardcoded : Pattern :=
  ⟨[Pre.oneOf quoteChars],
   Cap.words ["admin", "root", "user", "test", "demo", "password", "secret",
              "123456", "qwerty", "admin123"],
   [Pre.oneOf quoteChars]⟩

/-- Compiled from `r'["\']([a-zA-Z0-9]{32,})["\']'` (long alphanumeric strings). -/
def patLongToken : Pattern :=
  ⟨[Pre.oneOf quoteChars], Cap.alnum 32, [Pre.oneOf quoteChars]⟩

/-- Compiled from `r'["\']([a-zA-Z0-9]{20,})["\']'` (medium alphanumeric strings). -/
def patMediumToken : Pattern :=
  ⟨[Pre.oneOf quoteChars], Cap.alnum 20, [Pre.oneOf quoteChars]⟩

/-- Compiled from
`r'["\'](password|123456|qwerty|admin|root|user|test|demo|guest|welcome)["\']'`. -/
def patWeak : Pattern :=
  ⟨[Pre.oneOf quoteChars],
   Cap.words ["password", "123456", "qwerty", "admin", "root", "user", "test",
              "demo", "guest", "welcome"],
   [Pre.oneOf quoteChars]⟩

/-- The registry, in the source's order. -/
def PASSWORD_PATTERNS : List Pattern :=
  [patPassword, patPass, patPwd, patSecret, patToken, patKey, patAuth,
   patMongodb, patMongodbSrv, patHardcoded, patLongToken, patMediumToken, patWeak]

/-! ## Line scanning and suppression heuristics
Embedding of the body of `scan_file_for_passwords`. -/

/-- All raw credentials matched on one line: every pattern of the registry
is applied independently, in registry order (the nested
`for pattern ... for match ...` loops of the source). -/
def raw_line_matches (line : List Char) : List (List Char) :=
  PASSWORD_PATTERNS.flatMap (fun p => findAll p line)

/-- The three suppression checks of the source, as one keep-predicate: a
raw match becomes a Finding unless (1) the line contains `=` and the
credential occurs in `line.split('=')[0]`, or (2) the credential starts
with `\x7b` and ends with `\x7d`, or (3) the stripped line starts with `#`. -/
def keep_match (line credential : List Char) : Bool :=
  !(line.contains '=' && occursIn credential ((splitOnChar '=' line).headD [])) &&
  !(startsWithList ['\x7b'] credential && endsWithList ['\x7d'] credential) &&
  !(startsWithList ['#'] (trimList line))

/-- The Findings contributed by one line: `(line_num, line.strip(), credential)`
for every raw match that survives suppression, in match order. -/
def line_findings (line_num : Nat) (line : List Char) : List (Nat × String × String) :=
  ((raw_line_matches line).filter (fun cred => keep_match line cred)).map
    (fun cred => (line_num, String.mk (trimList line), String.mk cred))

/-- Scan a file's content: `content.split('\n')`, lines numbered from 1. -/
def scan_lines (content : List Char) : List (Nat × String × String) :=
  (enumFromN 1 (splitOnChar '\n' content)).flatMap (fun p => line_findings p.1 p.2)

/-! ## Path filter
Embedding of `is_excluded_file` and the `pathlib.Path` accessors it uses
(POSIX flavour; `.` segments and empty segments are dropped as `pathlib`
drops them). -/

/-- `pathlib.Path(p).parts` for a POSIX path: the root marker `/` when the
path is absolute, then the non-empty, non-`.` segments. -/
def pathParts (p : String) : List String :=
  let segs := ((splitOnChar '/' p.data).map String.mk).filter
    (fun s => !(s == "") && !(s == "."))
  if startsWithList ['/'] p.data then "/" :: segs else segs

/-- `pathlib.Path(p).name`: the last component, `""` for a root or empty path. -/
def pathName (p : String) : String :=
  (((splitOnChar '/' p.data).map String.mk).filter
    (fun s => !(s == "") && !(s == "."))).getLastD ""

/-- Index of the last `.` in a name, if any. -/
def lastDotIdx (cs : List Char) : Option Nat :=
  (enumFromN 0 cs).foldl (fun acc q => if q.2 == '.' then some q.1 else acc) none

/-- `pathlib.Path(p).suffix`: `name[i:]` when the last `.` of the name sits
strictly inside it (`0 < i < len(name) - 1` in the CPython source), else `""`. -/
def pathSuffix (p : String) : String :=
  let name := (pathName p).data
  match lastDotIdx name with
  | none => ""
  | some i =>
    if decide (0 < i) && decide (i + 1 < name.length) then String.mk (name.drop i)
    else ""

/-- The source's `EXCLUDED_FILES` set (membership is all that is used). -/
def EXCLUDED_FILES : List String :=
  [".secrets.baseline", ".env.example", "passwords_and_credentials.txt",
   "README.md", "node_modules", ".git", "__pycache__", ".pytest_cache",
   ".venv", "venv"]

/-- The source's `EXCLUDED_DIRS` set. -/
def EXCLUDED_DIRS : List String :=
  ["docs", "tests", ".git", "node_modules", "__pycache__", ".pytest_cache",
   ".venv", "venv"]

/-- Embedding of `is_excluded_file`: any path component in `EXCLUDED_DIRS`,
or the base name in `EXCLUDED_FILES`, or a `.md` suffix with a `docs`
component. -/
def is_excluded_file (filepath : String) : Bool :=
  let parts := pathParts filepath
  parts.any (fun part => EXCLUDED_DIRS.contains part) ||
  EXCLUDED_FILES.contains (pathName filepath) ||
  (pathSuffix filepath == ".md" && parts.contains "docs")

/-! ## File system model and main -/

/-- The file-system operations the scanner performs: `os.path.exists` and
reading a file as UTF-8 text (`none` models any read failure — the
`except` branch of `scan_file_for_passwords`). -/
structure FileSystem where
  pathExists : String → Bool
  readFile : String → Option String

/-- Embedding of `scan_file_for_passwords`: on a successful read, the
Findings of every line; on a read failure, no Findings and the
`Error reading file ...` diagnostic printed to stderr. -/
def scan_file_for_passwords (fs : FileSystem) (filepath : String) :
    List (Nat × String × String) × List String :=
  match fs.readFile filepath with
  | some content => (scan_lines content.data, [])
  | none => ([], ["Error reading file " ++ filepath])

/-- One iteration of the loop in `main`: skip (with a diagnostic) a path
that does not exist, silently skip an excluded path, otherwise scan; the
file enters `issues_found` only when its issue list is non-empty. -/
def process_file (fs : FileSystem) (filepath : String) :
    Option (String × List (Nat × String × String)) × List String :=
  if fs.pathExists filepath = false then (none, ["File not found: " ++ filepath])
  else if is_excluded_file filepath then (none, [])
  else
    let res := scan_file_for_passwords fs filepath
    (if res.1.isEmpty then none else some (filepath, res.1), res.2)

/-- The `issues_found` accumulator of `main`: the files, in argument
order, whose scan produced at least one Finding, with their Findings. -/
def issues_found (fs : FileSystem) (files_to_scan : List String) :
    List (String × List (Nat × String × String)) :=
  files_to_scan.filterMap (fun fp => (process_file fs fp).1)

/-- The stderr diagnostics of a run of `main`. -/
def main_diags (fs : FileSystem) (args : List String) : List String :=
  if args.isEmpty then ["No files provided to scan"]
  else args.flatMap (fun fp => (process_file fs fp).2)

/-- Embedding of `main` (exit status): `1` when no arguments are given,
otherwise `1` when `issues_found` is non-empty and `0` when it is empty. -/
def main (fs : FileSystem) (args : List String) : Nat :=
  if args.isEmpty then 1
  else if (issues_found fs args).isEmpty then 0 else 1

/-! ## Concrete file systems used as witnesses -/

/-- A file system on which no path exists. -/
def fsNone : FileSystem := ⟨fun _ => false, fun _ => none⟩

/-- A file system on which every path exists and reads as the single line
`password = "supersecret123"`. -/
def fsSecret : FileSystem := ⟨fun _ => true, fun _ => some "password = \"supersecret123\""⟩

/-- A file system on which every path exists but no read succeeds. -/
def fsNoRead : FileSystem := ⟨fun _ => true, fun _ => none⟩

/-! ## Claims -/

/-- C5: every line whose whitespace-trimmed form starts with the comment
marker `#` produces no Finding, regardless of which patterns match. -/
theorem c5_comment_line_suppression (line : List Char)
    (h : startsWithList ['#'] (trimList line) = true) (n : Nat) :
    line_findings n line = [] := by
  simp [line_findings, keep_match, h]

/-- Witness for C5 at the concrete line `# password = "supersecret123"`. -/
theorem c5_comment_line_suppression_witness :
    startsWithList ['#'] (trimList ("# password = \"supersecret123\"").data) = true ∧
    line_findings 1 ("# password = \"supersecret123\"").data = [] :=
  ⟨by decide, c5_comment_line_suppression ("# password = \"supersecret123\"").data (by decide) 1⟩

/-- C6: a raw match whose credential occurs verbatim before the first `=`
of a line containing `=` is suppressed and yields no Finding with that
credential text; in particular the line `PASS_VAR = "PASS_VAR"` produces
zero Findings. -/
theorem c6_self_reference_suppression :
    (∀ (line cred : List Char) (n : Nat),
      line.contains '=' = true →
      occursIn cred ((splitOnChar '=' line).headD []) = true →
      String.mk cred ∉ (line_findings n line).map (fun f => f.2.2)) ∧
    line_findings 1 ("PASS_VAR = \"PASS_VAR\"").data = [] := by
  constructor
  · intro line cred n h1 h2 hmem
    rw [line_findings, List.map_map] at hmem
    rcases List.mem_map.mp hmem with ⟨c, hc, hceq⟩
    have hceq' : String.mk c = String.mk cred := by
      simpa [Function.comp] using hceq
    have hcc : c = cred := congrArg String.data hceq'
    rcases List.mem_filter.mp hc with ⟨-, hkeep⟩
    rw [hcc, keep_match] at hkeep
    simp only [Bool.and_eq_true, Bool.not_eq_true'] at hkeep
    obtain ⟨⟨ha, -⟩, -⟩ := hkeep
    rw [h1, Bool.true_and] at ha
    rw [ha] at h2
    exact Bool.false_ne_true h2
  · decide

/-- Witness for C6 at the line `USER_KEY = "x" USER_KEY` with credential
`USER_KEY`, which occurs before the first `=`. -/
theorem c6_self_reference_suppression_witness :
    (("USER_KEY = \"x\"").data.contains '=' = true ∧
     occursIn ("USER_KEY").data ((splitOnChar '=' ("USER_KEY = \"x\"").data).headD []) = true) ∧
    String.mk ("USER_KEY").data ∉
      (line_findings 1 ("USER_KEY = \"x\"").data).map (fun f => f.2.2) :=
  ⟨⟨by decide, by decide⟩,
   c6_self_reference_suppression.1 ("USER_KEY = \"x\"").data ("USER_KEY").data 1
     (by decide) (by decide)⟩

/-- C7: a raw match whose credential starts with `\x7b` and ends with `\x7d`
is suppressed and yields no Finding with that credential text; in
particular the line `password = "\x7bADMIN_PASS\x7d"` produces zero Findings. -/
theorem c7_placeholder_suppression :
    (∀ (line cred : List Char) (n : Nat),
      startsWithList ['\x7b'] cred = true →
      endsWithList ['\x7d'] cred = true →
      String.mk cred ∉ (line_findings n line).map (fun f => f.2.2)) ∧
    line_findings 1 ("password = \"\x7bADMIN_PASS\x7d\"").data = [] := by
  constructor
  · intro line cred n h1 h2 hmem
    rw [line_findings, List.map_map] at hmem
    rcases List.mem_map.mp hmem with ⟨c, hc, hceq⟩
    have hceq' : String.mk c = String.mk cred := by
      simpa [Function.comp] using hceq
    have hcc : c = cred := congrArg String.data hceq'
    rcases List.mem_filter.mp hc with ⟨-, hkeep⟩
    rw [hcc, keep_match] at hkeep
    simp only [Bool.and_eq_true, Bool.not_eq_true'] at hkeep
    obtain ⟨⟨-, hb⟩, -⟩ := hkeep
    rw [h1, h2, Bool.and_self] at hb
    exact Bool.false_ne_true hb.symm
  · decide

/-- Witness for C7 at the line `password = "\x7bADMIN_PASS\x7d"` with
credential `\x7bADMIN_PASS\x7d`. -/
theorem c7_placeholder_suppression_witness :
    (startsWithList ['\x7b'] ("\x7bADMIN_PASS\x7d").data = true ∧
     endsWithList ['\x7d'] ("\x7bADMIN_PASS\x7d").data = true) ∧
    String.mk ("\x7bADMIN_PASS\x7d").data ∉
      (line_findings 1 ("password = \"\x7bADMIN_PASS\x7d\"").data).map (fun f => f.2.2) :=
  ⟨⟨by decide, by decide⟩,
   c7_placeholder_suppression.1 ("password = \"\x7bADMIN_PASS\x7d\"").data
     ("\x7bADMIN_PASS\x7d").data 1 (by decide) (by decide)⟩

/-- C9: per-pattern scans are independent, so one quoted 36-character
alphanumeric literal is reported twice — once by the 32-or-more pattern
and once by the 20-or-more pattern — with the same line number and the
same credential text. -/
theorem c9_duplicate_reporting :
    scan_lines ("x = \"abcdefghijklmnopqrstuvwxyz0123456789\"").data =
      [(1, "x = \"abcdefghijklmnopqrstuvwxyz0123456789\"",
           "abcdefghijklmnopqrstuvwxyz0123456789"),
       (1, "x = \"abcdefghijklmnopqrstuvwxyz0123456789\"",
           "abcdefghijklmnopqrstuvwxyz0123456789")] := by
  decide

/-- C4: a path is excluded exactly when some component is an excluded
directory name, or the base name is an excluded file name, or the suffix
is `.md` with a `docs` component; and a file named `.env.example`
contributes zero Findings to `issues_found` on any file system. -/
theorem c4_path_filter :
    (∀ p : String, is_excluded_file p = true ↔
      ((∃ part ∈ pathParts p, part ∈ EXCLUDED_DIRS) ∨
       pathName p ∈ EXCLUDED_FILES ∨
       (pathSuffix p = ".md" ∧ "docs" ∈ pathParts p))) ∧
    (∀ fs : FileSystem, issues_found fs [".env.example"] = []) := by
  constructor
  · intro p
    simp [is_excluded_file, List.any_eq_true, List.contains_eq_any_beq, or_assoc]
  · intro fs
    have hex : is_excluded_file ".env.example" = true := by decide
    cases h : fs.pathExists ".env.example" with
    | false => simp [issues_found, process_file, h]
    | true => simp [issues_found, process_file, h, hex]

/-- C10: the excluded-directory check inspects every path component,
including the final one, so any path whose last component is an excluded
directory name is excluded. -/
theorem c10_basename_is_excluded_dir (p d : String)
    (h1 : (pathParts p).getLast? = some d)
    (h2 : d ∈ EXCLUDED_DIRS) :
    is_excluded_file p = true := by
  have hd : d ∈ pathParts p := List.mem_of_getLast?_eq_some h1
  simp only [is_excluded_file, Bool.or_eq_true, List.any_eq_true]
  exact Or.inl (Or.inl ⟨d, hd, by simpa using h2⟩)

/-- Witness for C10 at the path `tests`, a plain file named like an
excluded directory. -/
theorem c10_basename_is_excluded_dir_witness :
    ((pathParts "tests").getLast? = some "tests" ∧ "tests" ∈ EXCLUDED_DIRS) ∧
    is_excluded_file "tests" = true :=
  ⟨⟨by decide, by decide⟩,
   c10_basename_is_excluded_dir "tests" "tests" (by decide) (by decide)⟩

/-- C3: scanning an existing, non-excluded file whose content is the
single line `password = "supersecret123"` yields exactly one Finding,
with credential text `supersecret123`. -/
theorem c3_positive_case (fs : FileSystem) (fp : String)
    (h1 : fs.pathExists fp = true) (h2 : is_excluded_file fp = false)
    (h3 : fs.readFile fp = some "password = \"supersecret123\"") :
    issues_found fs [fp] =
      [(fp, [(1, "password = \"supersecret123\"", "supersecret123")])] := by
  have hscan : scan_lines ("password = \"supersecret123\"" : String).data =
      [(1, "password = \"supersecret123\"", "supersecret123")] := by decide
  simp [issues_found, process_file, scan_file_for_passwords, h1, h2, h3, hscan]

/-- Witness for C3 on the concrete file system `fsSecret` and path `app.py`. -/
theorem c3_positive_case_witness :
    (fsSecret.pathExists "app.py" = true ∧ is_excluded_file "app.py" = false ∧
     fsSecret.readFile "app.py" = some "password = \"supersecret123\"") ∧
    issues_found fsSecret ["app.py"] =
      [("app.py", [(1, "password = \"supersecret123\"", "supersecret123")])] :=
  ⟨⟨rfl, by decide, rfl⟩, c3_positive_case fsSecret "app.py" rfl (by decide) rfl⟩

/-- C1: the exit status of `main` is `1` on an empty candidate list, `0`
on a non-empty candidate list with no surviving Findings, and `1`
whenever some Finding exists. -/
theorem c1_exit_status_policy (fs : FileSystem) (args : List String) :
    (args = [] → main fs args = 1) ∧
    (args ≠ [] → issues_found fs args = [] → main fs args = 0) ∧
    (issues_found fs args ≠ [] → main fs args = 1) := by
  refine ⟨fun h => by simp [main, h], fun h1 h2 => by simp [main, h1, h2], fun h => ?_⟩
  have h1 : args ≠ [] := by
    intro he
    rw [he] at h
    exact h rfl
  simp [main, h1, h]

/-- Witness for C1: empty list exits 1, a clean run exits 0, a run with a
Finding exits 1. -/
theorem c1_exit_status_policy_witness :
    main fsNone ([] : List String) = 1 ∧
    main fsNone ["app.py"] = 0 ∧
    main fsSecret ["app.py"] = 1 :=
  ⟨(c1_exit_status_policy fsNone []).1 rfl,
   (c1_exit_status_policy fsNone ["app.py"]).2.1 (by decide) (by decide),
   (c1_exit_status_policy fsSecret ["app.py"]).2.2 (by decide)⟩

/-- C2 counterexample: with a single missing path the code emits the
`File not found` diagnostic but exits `0`, not `1` as the claim states
(the missing path is skipped and `issues_found` stays empty, which is the
clean-pass branch of `main`). -/
theorem c2_counterexample :
    fsNone.pathExists "missing.txt" = false ∧
    main_diags fsNone ["missing.txt"] = ["File not found: missing.txt"] ∧
    main fsNone ["missing.txt"] = 0 ∧
    main fsNone ["missing.txt"] ≠ 1 := by
  decide

/-- C2 as amended: for an invocation whose candidate list is exactly one
non-existing path, a diagnostic is emitted and the exit status is `0`
(the fail-closed exit `1` applies only to an empty candidate list). -/
theorem c2_missing_path_clean_exit (fs : FileSystem) (fp : String)
    (h : fs.pathExists fp = false) :
    ("File not found: " ++ fp) ∈ main_diags fs [fp] ∧ main fs [fp] = 0 := by
  constructor
  · simp [main_diags, process_file, h]
  · simp [main, issues_found, process_file, h]

/-- Witness for the amended C2 on `fsNone` and the path `missing.txt`. -/
theorem c2_missing_path_clean_exit_witness :
    fsNone.pathExists "missing.txt" = false ∧
    (("File not found: " ++ "missing.txt") ∈ main_diags fsNone ["missing.txt"] ∧
     main fsNone ["missing.txt"] = 0) :=
  ⟨rfl, c2_missing_path_clean_exit fsNone "missing.txt" rfl⟩

/-- C8: a failed read yields an empty issue list for that file and the
`Error reading file` diagnostic; every other candidate is scanned exactly
as if the unreadable file were absent from the candidate list, so the
failure never forces exit status `1` by itself. -/
theorem c8_read_failure_nonfatal (fs : FileSystem) (fp : String)
    (pre post : List String)
    (hex : fs.pathExists fp = true) (hnx : is_excluded_file fp = false)
    (hrd : fs.readFile fp = none) (hne : pre ++ post ≠ []) :
    (scan_file_for_passwords fs fp).1 = [] ∧
    ("Error reading file " ++ fp) ∈ main_diags fs (pre ++ fp :: post) ∧
    issues_found fs (pre ++ fp :: post) = issues_found fs (pre ++ post) ∧
    main fs (pre ++ fp :: post) = main fs (pre ++ post) := by
  have hproc : (process_file fs fp).1 = none := by
    simp [process_file, hex, hnx, scan_file_for_passwords, hrd]
  have hiss : issues_found fs (pre ++ fp :: post) = issues_found fs (pre ++ post) := by
    simp [issues_found, List.filterMap_append, List.filterMap_cons, hproc]
  refine ⟨by simp [scan_file_for_passwords, hrd], ?_, hiss, ?_⟩
  · have hargne : (pre ++ fp :: post) ≠ [] := by simp
    have hmem : ("Error reading file " ++ fp) ∈
        (pre ++ fp :: post).flatMap (fun q => (process_file fs q).2) := by
      refine List.mem_flatMap.mpr ⟨fp, List.mem_append_right _ (List.mem_cons_self fp post), ?_⟩
      simp [process_file, hex, hnx, scan_file_for_passwords, hrd]
    simpa [main_diags, hargne] using hmem
  · have hie1 : (pre ++ fp :: post).isEmpty = false := by
      cases pre <;> rfl
    have hie2 : (pre ++ post).isEmpty = false := by
      rw [List.isEmpty_eq_false]
      exact hne
    rw [main, main, hie1, hie2, hiss]

/-- Witness for C8 on `fsNoRead`: the unreadable `a.py` amid the
candidate list `[a.py, b.py]`. -/
theorem c8_read_failure_nonfatal_witness :
    (fsNoRead.pathExists "a.py" = true ∧ is_excluded_file "a.py" = false ∧
     fsNoRead.readFile "a.py" = none ∧ ([] : List String) ++ ["b.py"] ≠ []) ∧
    ((scan_file_for_passwords fsNoRead "a.py").1 = [] ∧
     ("Error reading file " ++ "a.py") ∈ main_diags fsNoRead ([] ++ "a.py" :: ["b.py"]) ∧
     issues_found fsNoRead ([] ++ "a.py" :: ["b.py"]) = issues_found fsNoRead ([] ++ ["b.py"]) ∧
     main fsNoRead ([] ++ "a.py" :: ["b.py"]) = main fsNoRead ([] ++ ["b.py"])) :=
  ⟨⟨rfl, by decide, rfl, by decide⟩,
   c8_read_failure_nonfatal fsNoRead "a.py" [] ["b.py"] rfl (by decide) rfl (by decide)⟩

end CheckPasswords
